import Mathlib

/-
Verification of the grant-proposal compliance-validation pipeline.

Shallow embedding of the deterministic core of the repository:
the compliance heuristic extractor (src/agents/compliance_agent.py),
the risk scoring engine (src/agents/risk_scoring_agent.py), the
orchestrator status logic (src/agents/orchestrator.py) and the email
fallback chain (src/agents/email_trigger_agent.py).

Conventions of the embedding:
machine floats are modelled as exact rationals (the constants 0.60, 0.25,
0.15, 0.9 appearing in the source are decimal literals); Python strings
are Lean strings, with the character-level operations written out over
lists of characters; Python round(x, 2) is modelled as round-half-to-even
at two decimal places; dictionaries holding stage results become
structures carrying the fields the claims are about (timestamps, log
payloads and free-text recommendation lists carried alongside are
environment-dependent or unused by every claim and are not modelled).
-/

set_option autoImplicit false

namespace GrantEO

/-! ## Character and string utilities mirroring Python string primitives -/

/-- Python `\s` on ASCII text: the six whitespace characters. -/
def isSpacePy (c : Char) : Bool :=
  c = ' ' || c = '\t' || c = '\n' || c = '\r' || c = '\x0b' || c = '\x0c'

/-- Does the second list start with the first list (Python `startswith`)? -/
def startsWithL : List Char → List Char → Bool
  | [], _ => true
  | _ :: _, [] => false
  | p :: ps, c :: cs => p == c && startsWithL ps cs

/-- Python substring test `needle in haystack`. -/
def containsSub (needle : List Char) : List Char → Bool
  | [] => startsWithL needle []
  | c :: cs => startsWithL needle (c :: cs) || containsSub needle cs

/-- Helper for `countSub`: scan the haystack position by position; the
counter records how many further positions are still covered by the most
recent match and must be passed over, which makes the count
non-overlapping. -/
def countSubAux (needle : List Char) : List Char → Nat → Nat
  | [], _ => 0
  | _ :: cs, Nat.succ k => countSubAux needle cs k
  | c :: cs, 0 =>
    if startsWithL needle (c :: cs) then
      countSubAux needle cs (needle.length - 1) + 1
    else
      countSubAux needle cs 0

/-- Python `str.count` for a non-empty needle: number of non-overlapping
occurrences, scanning left to right. -/
def countSub (needle hay : List Char) : Nat :=
  countSubAux needle hay 0

/-- Python `str.lower` on ASCII text, character by character. -/
def lowerL (cs : List Char) : List Char := cs.map Char.toLower

/-- Value of a decimal digit string, as Python `int` reads the regex group. -/
def digitsToNat (ds : List Char) : Nat :=
  ds.foldl (fun acc c => 10 * acc + (c.toNat - '0'.toNat)) 0

/-- Case-insensitive literal match: if the text starts with the pattern
(compared lowercase), return the rest of the text. -/
def matchCaseless : List Char → List Char → Option (List Char)
  | [], rest => some rest
  | _ :: _, [] => none
  | p :: ps, c :: cs => if c.toLower == p then matchCaseless ps cs else none

/-! ## Compliance heuristic extractor (src/agents/compliance_agent.py) -/

/-- Attempt to match the regex `confidence\s*score[:\s]*(\d+)`
(IGNORECASE) at the head of the text, returning the captured integer.
The pattern is deterministic under greedy matching because whitespace
cannot begin the literal `score` and `[:\s]` characters are not digits,
so the backtracking regex engine and maximal munch agree. -/
def confMatchAt (cs : List Char) : Option Nat :=
  match matchCaseless "confidence".data cs with
  | none => none
  | some r1 =>
    match matchCaseless "score".data (r1.dropWhile isSpacePy) with
    | none => none
    | some r2 =>
      let digits := (r2.dropWhile (fun c => c == ':' || isSpacePy c)).takeWhile Char.isDigit
      if digits.isEmpty then none else some (digitsToNat digits)

/-- `re.search` behaviour: try each start position from the left, first
match wins. -/
def confSearch : List Char → Option Nat
  | [] => none
  | c :: cs =>
    match confMatchAt (c :: cs) with
    | some n => some n
    | none => confSearch cs

/-- `ComplianceAgent._extract_confidence_score`: the first integer next to
a confidence-score marker, defaulting to 70 when the regex finds nothing.
The source returns the matched integer unmodified. -/
def extract_confidence_score (text : String) : ℤ :=
  match confSearch text.data with
  | some n => (n : ℤ)
  | none => 70

/-- `ComplianceAgent._extract_status`: lowercase the analysis and branch
on the substring tests, in the order written in the source. -/
def extract_status (text : String) : String :=
  let text_lower := lowerL text.data
  if containsSub "compliant".data text_lower &&
      !(containsSub "non-compliant".data text_lower) then "Compliant"
  else if containsSub "non-compliant".data text_lower then "Non-Compliant"
  else "Requires Review"

/-- The status precedence exactly as the specification words it:
non-compliant marker first, then compliant marker, then the default. -/
def extract_status_spec (text : String) : String :=
  let text_lower := lowerL text.data
  if containsSub "non-compliant".data text_lower then "Non-Compliant"
  else if containsSub "compliant".data text_lower then "Compliant"
  else "Requires Review"

/-! ## Risk scoring engine (src/agents/risk_scoring_agent.py) -/

/-- Compliance report dictionary as assembled by the orchestrator and
consumed by `RiskScoringAgent`. -/
structure ComplianceReport where
  compliance_score : ℚ
  confidence_score : ℚ
  violations : List String
  warnings : List String
  relevant_executive_orders : List String

/-- Summary dictionary fields the scoring engine reads. -/
structure SummaryResult where
  key_topics : List String
  key_clauses : List String

/-- Document metadata fields the scoring engine reads. -/
structure DocMetadata where
  word_count : ℕ
  page_count : ℕ

/-- `RiskScoringAgent._calculate_compliance_risk`, score component:
weight the compliance score by the confidence factor, and multiply by
0.9 when the confidence is below 60. -/
def complianceRiskScore (r : ComplianceReport) : ℚ :=
  let confidence_factor := r.confidence_score / 100
  let risk_score := r.compliance_score * confidence_factor
  if r.confidence_score < 60 then risk_score * (9 / 10) else risk_score

/-- `RiskScoringAgent._calculate_quality_risk` before the final
`max(0, _)` clamp: 100 minus the word-count, page-count and key-topic
penalties applied in source order. -/
def qualityRiskRaw (sm : SummaryResult) (md : DocMetadata) : ℚ :=
  let q0 : ℚ := 100
  let q1 := if md.word_count < 500 then q0 - 30
            else if md.word_count < 1000 then q0 - 15 else q0
  let q2 := if md.page_count < 2 then q1 - 10 else q1
  if sm.key_topics.length < 3 then q2 - 20 else q2

/-- `RiskScoringAgent._calculate_quality_risk`, score component. -/
def qualityRiskScore (sm : SummaryResult) (md : DocMetadata) : ℚ :=
  max 0 (qualityRiskRaw sm md)

/-- `RiskScoringAgent._calculate_completeness_risk` before the final
`max(0, _)` clamp: 100 minus the key-clause penalty and the
executive-order penalty (the 40 and 20 branches are an if/elif). -/
def completenessRiskRaw (cr : ComplianceReport) (sm : SummaryResult) : ℚ :=
  let c0 : ℚ := 100
  let c1 := if sm.key_clauses.length < 3 then c0 - 25 else c0
  if cr.relevant_executive_orders.length = 0 then c1 - 40
  else if cr.relevant_executive_orders.length < 2 then c1 - 20 else c1

/-- `RiskScoringAgent._calculate_completeness_risk`, score component. -/
def completenessRiskScore (cr : ComplianceReport) (sm : SummaryResult) : ℚ :=
  max 0 (completenessRiskRaw cr sm)

/-- The weighted overall score before rounding:
compliance 0.60, quality 0.25, completeness 0.15. -/
def rawOverallScore (cr : ComplianceReport) (sm : SummaryResult) (md : DocMetadata) : ℚ :=
  complianceRiskScore cr * (60 / 100) +
  qualityRiskScore sm md * (25 / 100) +
  completenessRiskScore cr sm * (15 / 100)

/-- `RiskScoringAgent._determine_risk_level` with the class thresholds
LOW 90, MEDIUM 75, HIGH 60. -/
def determine_risk_level (score : ℚ) : String :=
  if 90 ≤ score then "low"
  else if 75 ≤ score then "medium"
  else if 60 ≤ score then "medium-high"
  else "high"

/-- Round half to even to the nearest integer, the convention of
Python builtin `round`. -/
def roundHalfEven (y : ℚ) : ℤ :=
  let f := ⌊y⌋
  if y - f < 1 / 2 then f
  else if 1 / 2 < y - f then f + 1
  else if f % 2 = 0 then f else f + 1

/-- Python `round(x, 2)`. -/
def round2 (x : ℚ) : ℚ := (roundHalfEven (100 * x) : ℚ) / 100

/-- `RiskScoringAgent._calculate_confidence`. -/
def riskConfidence (score : ℚ) : ℚ :=
  round2 (min 100 (50 + |score - 50|))

/-- The risk report dictionary returned by
`RiskScoringAgent.calculate_risk_score` (fields read by the claims;
factor lists, recommendations and timestamps omitted). -/
structure RiskReport where
  overall_score : ℚ
  risk_level : String
  confidence : ℚ
  requires_notification : Bool
  compliance_risk : ℚ
  quality_risk : ℚ
  completeness_risk : ℚ

/-- `RiskScoringAgent.calculate_risk_score`: weighted overall score,
risk level, notification flag (overall score below the MEDIUM threshold
75, computed on the unrounded score), with the overall score stored
rounded to two decimals. -/
def calculate_risk_score (cr : ComplianceReport) (sm : SummaryResult) (md : DocMetadata) :
    RiskReport :=
  let overall := rawOverallScore cr sm md
  { overall_score := round2 overall
    risk_level := determine_risk_level overall
    confidence := riskConfidence overall
    requires_notification := decide (overall < 75)
    compliance_risk := complianceRiskScore cr
    quality_risk := qualityRiskScore sm md
    completeness_risk := completenessRiskScore cr sm }

/-! ## Orchestrator status logic (src/agents/orchestrator.py) -/

/-- The status normalisation in `process_grant_proposal_async`:
`compliance_analysis["status"].lower().replace(" ", "_")`. Only spaces
become underscores; other characters are merely lowercased. -/
def pyNormalizeStatus (s : String) : String :=
  String.mk (s.data.map (fun c => if c.toLower = ' ' then '_' else c.toLower))

/-- `AgentOrchestrator._determine_overall_status`. -/
def determine_overall_status (risk_level compliance_status : String) : String :=
  if risk_level = "high" ∨ compliance_status = "non_compliant" then
    "requires_legal_review"
  else if risk_level = "medium-high" ∨ risk_level = "medium" then
    "requires_review"
  else
    "approved_with_conditions"

/-- The negative indicator table of
`AgentOrchestrator._calculate_compliance_score_from_analysis`. -/
def negativeIndicators : List (String × ℤ) :=
  [("violation", -10), ("non-compliant", -10), ("concern", -5), ("issue", -3),
   ("risk", -3), ("problem", -5), ("fails to", -8), ("does not comply", -10),
   ("missing", -5), ("lacks", -5), ("dei", -5), ("diversity", -3),
   ("gender ideology", -5)]

/-- The positive indicator table of
`AgentOrchestrator._calculate_compliance_score_from_analysis`. -/
def positiveIndicators : List (String × ℤ) :=
  [("compliant", 5), ("meets requirements", 8), ("aligns with", 5),
   ("satisfies", 5), ("complies with", 8), ("no concerns", 10), ("no issues", 8)]

/-- One negative indicator contribution: the occurrence count capped at
3 (Python `min(text_lower.count(indicator), 3)`) times the weight. -/
def indicatorPenalty (text_lower : List Char) (p : String × ℤ) : ℤ :=
  ((if countSub p.1.data text_lower ≤ 3 then countSub p.1.data text_lower else 3 : ℕ) : ℤ) * p.2

/-- One positive indicator contribution: the weight when the indicator
occurs in the lowercased text. -/
def indicatorBonus (text_lower : List Char) (p : String × ℤ) : ℤ :=
  if containsSub p.1.data text_lower then p.2 else 0

/-- `AgentOrchestrator._calculate_compliance_score_from_analysis`:
base score from the normalised status, occurrence-capped penalties,
presence bonuses, the executive-order adjustment (an if/elif), and the
final clamp into [0, 100]. -/
def calc_compliance_score_from_analysis (status : String) (analysis_text : String)
    (relevant_eos : List String) : ℚ :=
  let base_score : ℚ :=
    if status = "compliant" then 90
    else if status = "non_compliant" then 30
    else 60
  let text_lower := lowerL analysis_text.data
  let penalty0 : ℤ := (negativeIndicators.map (indicatorPenalty text_lower)).sum
  let bonus0 : ℤ := (positiveIndicators.map (indicatorBonus text_lower)).sum
  let adjusted :=
    if 2 ≤ relevant_eos.length then (bonus0 + 5, penalty0)
    else if relevant_eos.length = 0 then (bonus0, penalty0 - 10)
    else (bonus0, penalty0)
  max 0 (min 100 (base_score + (adjusted.1 : ℚ) + (adjusted.2 : ℚ)))

/-- Outcome of the deterministic tail of one completed workflow run
(steps 3 to 5 of `process_grant_proposal_async`), given the free-text
compliance analysis returned by the external model together with the
upstream summary and metadata. -/
structure WorkflowOutcome where
  compliance_status : String
  compliance_score : ℚ
  risk : RiskReport
  overall_status : String

/-- The deterministic core of `process_grant_proposal_async`: extract
the status from the analysis text, normalise it, compute the compliance
score, run risk scoring, and derive the overall workflow status. -/
def runComplianceAndRisk (analysis_text : String) (relevant_eos : List String)
    (sm : SummaryResult) (md : DocMetadata) : WorkflowOutcome :=
  let status := pyNormalizeStatus (extract_status analysis_text)
  let compliance_score := calc_compliance_score_from_analysis status analysis_text relevant_eos
  let report : ComplianceReport :=
    { compliance_score := compliance_score
      confidence_score := (extract_confidence_score analysis_text : ℚ)
      violations := []
      warnings := []
      relevant_executive_orders := relevant_eos }
  let risk := calculate_risk_score report sm md
  { compliance_status := status
    compliance_score := compliance_score
    risk := risk
    overall_status := determine_overall_status risk.risk_level status }

/-! ## Email fallback chain (src/agents/email_trigger_agent.py) -/

/-- Email content as assembled by `EmailTriggerAgent.prepare_email`. -/
structure EmailData where
  subject : String
  body_html : String
  body_text : String
  priority : String
  to_addr : String
  from_addr : String

/-- Delivery record fields named by the claim (`status` and `method`);
the timestamp-bearing `message_id` and `sent_at` fields are
environment-dependent and not modelled. -/
structure SendRecord where
  status : String
  method : String

/-- The three delivery channels tried by `EmailTriggerAgent.send_email`. -/
inductive EmailChannel where
  | graphApi
  | smtp
  | demo
deriving DecidableEq

/-- Position of a channel in the fixed fallback order. -/
def chanIdx : EmailChannel → ℕ
  | .graphApi => 0
  | .smtp => 1
  | .demo => 2

/-- Is a list of indices strictly increasing? Used to state that the
attempted channels respect the fixed order with no repetition. -/
def strictChain : List ℕ → Bool
  | [] => true
  | [_] => true
  | a :: b :: rest => decide (a < b) && strictChain (b :: rest)

/-- `EmailTriggerAgent._send_via_graph_api`: an external network call;
on success the source constructs a record with status `sent` and method
`graph_api`, on failure it raises. The Boolean models the outcome of
the external call. -/
def send_via_graph_api (ok : Bool) (_e : EmailData) : Except String SendRecord :=
  if ok then Except.ok { status := "sent", method := "graph_api" }
  else Except.error "Graph API error"

/-- `EmailTriggerAgent._send_via_smtp`: as above with status `sent` and
method `smtp`. -/
def send_via_smtp (ok : Bool) (_e : EmailData) : Except String SendRecord :=
  if ok then Except.ok { status := "sent", method := "smtp" }
  else Except.error "SMTP error"

/-- `EmailTriggerAgent._simulate_email_send`: builds the demo record
from the already-prepared email fields and cannot fail. -/
def simulate_email_send (_e : EmailData) : SendRecord :=
  { status := "simulated", method := "demo" }

/-- Configuration and external-world state consulted by `send_email`:
the constructor flags and the outcomes of the two fallible external
calls. -/
structure EmailEnv where
  use_graph_api : Bool
  smtp_enabled : Bool
  smtp_username : String
  smtp_password : String
  graph_ok : Bool
  smtp_ok : Bool

/-- The SMTP gate in `send_email`:
`self.smtp_enabled and self.smtp_username and self.smtp_password`
(non-empty strings are truthy). -/
def smtpConfigured (env : EmailEnv) : Bool :=
  env.smtp_enabled && env.smtp_username != "" && env.smtp_password != ""

/-- `EmailTriggerAgent.send_email`: try Graph API when configured, fall
through to SMTP when configured, and finally to the simulated send.
The result records the channels attempted, in order, together with the
delivery record of the channel that succeeded; `Except.error` would
model an exception escaping to the caller. -/
def send_email (env : EmailEnv) (e : EmailData) :
    Except String (List EmailChannel × SendRecord) :=
  if env.use_graph_api then
    match send_via_graph_api env.graph_ok e with
    | Except.ok r => Except.ok ([EmailChannel.graphApi], r)
    | Except.error _ =>
      if smtpConfigured env then
        match send_via_smtp env.smtp_ok e with
        | Except.ok r => Except.ok ([EmailChannel.graphApi, EmailChannel.smtp], r)
        | Except.error _ =>
          Except.ok ([EmailChannel.graphApi, EmailChannel.smtp, EmailChannel.demo],
            simulate_email_send e)
      else
        Except.ok ([EmailChannel.graphApi, EmailChannel.demo], simulate_email_send e)
  else
    if smtpConfigured env then
      match send_via_smtp env.smtp_ok e with
      | Except.ok r => Except.ok ([EmailChannel.smtp], r)
      | Except.error _ =>
        Except.ok ([EmailChannel.smtp, EmailChannel.demo], simulate_email_send e)
    else
      Except.ok ([EmailChannel.demo], simulate_email_send e)

/-- The method string each channel writes into its delivery record. -/
def channelMethod : EmailChannel → String
  | .graphApi => "graph_api"
  | .smtp => "smtp"
  | .demo => "demo"

/-- The status string each channel writes into its delivery record. -/
def channelStatus : EmailChannel → String
  | .graphApi => "sent"
  | .smtp => "sent"
  | .demo => "simulated"

/-! ## Concrete run inputs used by the claim analyses -/

/-- A compliance analysis text a model can plausibly return: it names a
non-compliant finding, several positive phrasings, and a confidence
score. Its extracted status is Non-Compliant while its computed
compliance score is high. -/
def c1AnalysisText : String :=
  "non-compliant meets requirements aligns with satisfies complies with no concerns no issues confidence score: 100"

/-- Executive orders accompanying the analysis of `c1AnalysisText`. -/
def c1Eos : List String := ["14151", "14173"]

/-- A healthy upstream summary: three topics and three clauses. -/
def c1Summary : SummaryResult := ⟨["t1", "t2", "t3"], ["c1", "c2", "c3"]⟩

/-- Healthy document metadata: 1000 words over 2 pages. -/
def c1Metadata : DocMetadata := ⟨1000, 2⟩

/-! ## Rounding lemmas -/

theorem roundHalfEven_le_add_half (y : ℚ) : (roundHalfEven y : ℚ) ≤ y + 1 / 2 := by
  have h1 : (⌊y⌋ : ℚ) ≤ y := Int.floor_le y
  simp only [roundHalfEven]
  split_ifs with a b c
  · linarith
  · push_cast
    linarith
  · linarith
  · push_cast
    linarith

theorem floor_le_roundHalfEven (y : ℚ) : ⌊y⌋ ≤ roundHalfEven y := by
  simp only [roundHalfEven]
  split_ifs <;> omega

theorem round2_le_add (x : ℚ) : round2 x ≤ x + 1 / 200 := by
  have h := roundHalfEven_le_add_half (100 * x)
  unfold round2
  linarith

theorem round2_nonneg (x : ℚ) (hx : 0 ≤ x) : 0 ≤ round2 x := by
  have h1 : (0 : ℤ) ≤ ⌊100 * x⌋ := Int.floor_nonneg.mpr (by linarith)
  have h2 : ⌊100 * x⌋ ≤ roundHalfEven (100 * x) := floor_le_roundHalfEven _
  have h3 : (0 : ℚ) ≤ (roundHalfEven (100 * x) : ℚ) := by exact_mod_cast le_trans h1 h2
  unfold round2
  linarith

theorem round2_le_hundred (x : ℚ) (hx : x ≤ 100) : round2 x ≤ 100 := by
  have h1 : (roundHalfEven (100 * x) : ℚ) ≤ 100 * x + 1 / 2 := roundHalfEven_le_add_half _
  have h2 : (roundHalfEven (100 * x) : ℚ) < 10001 := by linarith
  have h3 : roundHalfEven (100 * x) < 10001 := by exact_mod_cast h2
  have h4 : (roundHalfEven (100 * x) : ℚ) ≤ 10000 := by exact_mod_cast Int.lt_add_one_iff.mp h3
  unfold round2
  linarith

theorem intCast_le_round2 (n : ℤ) (x : ℚ) (h : (n : ℚ) ≤ x) : (n : ℚ) ≤ round2 x := by
  have h1 : (100 * n : ℤ) ≤ ⌊100 * x⌋ := Int.le_floor.mpr (by push_cast; linarith)
  have h2 : ⌊100 * x⌋ ≤ roundHalfEven (100 * x) := floor_le_roundHalfEven _
  have h3 : ((100 * n : ℤ) : ℚ) ≤ (roundHalfEven (100 * x) : ℚ) := by
    exact_mod_cast le_trans h1 h2
  unfold round2
  push_cast at h3
  linarith

/-! ## Sub-score bound lemmas -/

theorem complianceRiskScore_nonneg (r : ComplianceReport)
    (h1 : 0 ≤ r.compliance_score) (h3 : 0 ≤ r.confidence_score) :
    0 ≤ complianceRiskScore r := by
  have key : 0 ≤ r.compliance_score * r.confidence_score := mul_nonneg h1 h3
  simp only [complianceRiskScore]
  split_ifs <;> nlinarith

theorem complianceRiskScore_le_hundred (r : ComplianceReport)
    (h1 : 0 ≤ r.compliance_score) (h2 : r.compliance_score ≤ 100)
    (h3 : 0 ≤ r.confidence_score) (h4 : r.confidence_score ≤ 100) :
    complianceRiskScore r ≤ 100 := by
  have key : r.compliance_score * r.confidence_score ≤ 100 * 100 :=
    mul_le_mul h2 h4 h3 (by norm_num)
  have k0 : 0 ≤ r.compliance_score * r.confidence_score := mul_nonneg h1 h3
  simp only [complianceRiskScore]
  split_ifs <;> nlinarith

theorem qualityRiskRaw_ge (sm : SummaryResult) (md : DocMetadata) :
    40 ≤ qualityRiskRaw sm md := by
  simp only [qualityRiskRaw]
  split_ifs <;> norm_num

theorem qualityRiskRaw_le (sm : SummaryResult) (md : DocMetadata) :
    qualityRiskRaw sm md ≤ 100 := by
  simp only [qualityRiskRaw]
  split_ifs <;> norm_num

theorem qualityRiskScore_eq_raw (sm : SummaryResult) (md : DocMetadata) :
    qualityRiskScore sm md = qualityRiskRaw sm md :=
  max_eq_right (le_trans (by norm_num) (qualityRiskRaw_ge sm md))

theorem completenessRiskRaw_ge (cr : ComplianceReport) (sm : SummaryResult) :
    35 ≤ completenessRiskRaw cr sm := by
  simp only [completenessRiskRaw]
  split_ifs <;> norm_num

theorem completenessRiskRaw_le (cr : ComplianceReport) (sm : SummaryResult) :
    completenessRiskRaw cr sm ≤ 100 := by
  simp only [completenessRiskRaw]
  split_ifs <;> norm_num

theorem completenessRiskScore_eq_raw (cr : ComplianceReport) (sm : SummaryResult) :
    completenessRiskScore cr sm = completenessRiskRaw cr sm :=
  max_eq_right (le_trans (by norm_num) (completenessRiskRaw_ge cr sm))

theorem rawOverallScore_bounds (cr : ComplianceReport) (sm : SummaryResult) (md : DocMetadata)
    (h1 : 0 ≤ cr.compliance_score) (h2 : cr.compliance_score ≤ 100)
    (h3 : 0 ≤ cr.confidence_score) (h4 : cr.confidence_score ≤ 100) :
    0 ≤ rawOverallScore cr sm md ∧ rawOverallScore cr sm md ≤ 100 := by
  have hc0 := complianceRiskScore_nonneg cr h1 h3
  have hc1 := complianceRiskScore_le_hundred cr h1 h2 h3 h4
  have hq0 := qualityRiskRaw_ge sm md
  have hq1 := qualityRiskRaw_le sm md
  have hk0 := completenessRiskRaw_ge cr sm
  have hk1 := completenessRiskRaw_le cr sm
  have hqe := qualityRiskScore_eq_raw sm md
  have hke := completenessRiskScore_eq_raw cr sm
  unfold rawOverallScore
  rw [hqe, hke]
  constructor <;> linarith

/-! ## Claim theorems -/

/-- Claim C2 (code bug evaluation): on the analysis text
`Confidence Score: 150` the extractor returns 150, exceeding 100, so the
extracted confidence is not clamped to the range claimed. -/
theorem c2_confidence_score_not_clamped :
    extract_confidence_score "Confidence Score: 150" = 150 ∧
    ¬ extract_confidence_score "Confidence Score: 150" ≤ 100 := by
  decide

/-- Claim C6: for every analysis text the extracted status agrees with
the spec precedence (a non-compliant marker wins, then a compliant
marker, then Requires Review); in particular a text containing
`non-compliant` is never classified Compliant. -/
theorem c6_status_precedence (text : String) :
    extract_status text = extract_status_spec text := by
  simp only [extract_status, extract_status_spec]
  cases h1 : containsSub "non-compliant".data (lowerL text.data) <;>
    cases h2 : containsSub "compliant".data (lowerL text.data) <;>
      simp [h1, h2]

/-- Claim C10: for every input the quality sub-score is at least 40 and
the completeness sub-score at least 35, so the floor-at-zero clamps are
identities and the weighted overall score is at least
0.60 times the compliance sub-score plus 15.25. -/
theorem c10_subscore_floors (cr : ComplianceReport) (sm : SummaryResult) (md : DocMetadata) :
    40 ≤ qualityRiskRaw sm md ∧ qualityRiskScore sm md = qualityRiskRaw sm md ∧
    35 ≤ completenessRiskRaw cr sm ∧ completenessRiskScore cr sm = completenessRiskRaw cr sm ∧
    complianceRiskScore cr * (60 / 100) + 1525 / 100 ≤ rawOverallScore cr sm md := by
  have hq := qualityRiskRaw_ge sm md
  have hc := completenessRiskRaw_ge cr sm
  have hqe := qualityRiskScore_eq_raw sm md
  have hce := completenessRiskScore_eq_raw cr sm
  refine ⟨hq, hqe, hc, hce, ?_⟩
  unfold rawOverallScore
  rw [hqe, hce]
  linarith

/-- Claim C9: the notification flag is set exactly when the risk level
is medium-high or high, because both fields are derived from the same
unrounded overall score compared against 75. -/
theorem c9_notification_iff_level (cr : ComplianceReport) (sm : SummaryResult) (md : DocMetadata) :
    (calculate_risk_score cr sm md).requires_notification = true ↔
      ((calculate_risk_score cr sm md).risk_level = "medium-high" ∨
        (calculate_risk_score cr sm md).risk_level = "high") := by
  simp only [calculate_risk_score, determine_risk_level, decide_eq_true_eq]
  split_ifs with h1 h2 h3
  · exact iff_of_false (by linarith) (by rintro (h | h) <;> exact absurd h (by decide))
  · exact iff_of_false (by linarith) (by rintro (h | h) <;> exact absurd h (by decide))
  · exact iff_of_true (by linarith) (Or.inl rfl)
  · exact iff_of_true (by linarith) (Or.inr rfl)

/-- Claim C5: for a fixed compliance score (and fixed violations and
warnings, which the sub-score does not read), the compliance risk
sub-score is monotonically non-decreasing in the confidence score over
[0, 100], including across the confidence = 60 boundary. -/
theorem c5_compliance_risk_monotone (cs c1 c2 : ℚ) (v w eos : List String)
    (hcs0 : 0 ≤ cs) (hcs1 : cs ≤ 100)
    (hc1 : 0 ≤ c1) (h12 : c1 ≤ c2) (hc2 : c2 ≤ 100) :
    complianceRiskScore ⟨cs, c1, v, w, eos⟩ ≤ complianceRiskScore ⟨cs, c2, v, w, eos⟩ := by
  have key : cs * c1 ≤ cs * c2 := mul_le_mul_of_nonneg_left h12 hcs0
  have k1 : 0 ≤ cs * c1 := mul_nonneg hcs0 hc1
  simp only [complianceRiskScore]
  split_ifs with ha hb hb
  · nlinarith
  · nlinarith
  · linarith
  · nlinarith

/-- Claim C5 witness: instantiated at compliance score 50 and
confidence scores 30 and 80, straddling the 60 boundary. -/
theorem c5_witness :
    ((0 : ℚ) ≤ 50 ∧ (50 : ℚ) ≤ 100 ∧ (0 : ℚ) ≤ 30 ∧ (30 : ℚ) ≤ 80 ∧ (80 : ℚ) ≤ 100) ∧
    complianceRiskScore ⟨50, 30, [], [], []⟩ ≤ complianceRiskScore ⟨50, 80, [], [], []⟩ :=
  ⟨by norm_num,
    c5_compliance_risk_monotone 50 30 80 [] [] []
      (by norm_num) (by norm_num) (by norm_num) (by norm_num) (by norm_num)⟩

/-- Claim C3: when the compliance score and the confidence score lie in
[0, 100], the stored overall score lies in [0, 100]; and over [0, 100]
the risk-level classification is a total, non-overlapping partition:
low exactly on [90, 100], medium exactly on [75, 90), medium-high
exactly on [60, 75), high exactly below 60. -/
theorem c3_score_bounds_and_level_partition (cr : ComplianceReport) (sm : SummaryResult)
    (md : DocMetadata) (s : ℚ)
    (h1 : 0 ≤ cr.compliance_score) (h2 : cr.compliance_score ≤ 100)
    (h3 : 0 ≤ cr.confidence_score) (h4 : cr.confidence_score ≤ 100)
    (h5 : 0 ≤ s) (h6 : s ≤ 100) :
    (0 ≤ (calculate_risk_score cr sm md).overall_score ∧
      (calculate_risk_score cr sm md).overall_score ≤ 100) ∧
    ((determine_risk_level s = "low" ↔ 90 ≤ s) ∧
      (determine_risk_level s = "medium" ↔ 75 ≤ s ∧ s < 90) ∧
      (determine_risk_level s = "medium-high" ↔ 60 ≤ s ∧ s < 75) ∧
      (determine_risk_level s = "high" ↔ s < 60)) := by
  constructor
  · have hraw := rawOverallScore_bounds cr sm md h1 h2 h3 h4
    simp only [calculate_risk_score]
    exact ⟨round2_nonneg _ hraw.1, round2_le_hundred _ hraw.2⟩
  · unfold determine_risk_level
    split_ifs with g1 g2 g3
    · exact ⟨iff_of_true rfl g1,
        iff_of_false (by decide) (by rintro ⟨_, b⟩; linarith),
        iff_of_false (by decide) (by rintro ⟨_, b⟩; linarith),
        iff_of_false (by decide) (by intro b; linarith)⟩
    · exact ⟨iff_of_false (by decide) (by intro b; exact g1 b),
        iff_of_true rfl ⟨g2, lt_of_not_le g1⟩,
        iff_of_false (by decide) (by rintro ⟨_, b⟩; linarith),
        iff_of_false (by decide) (by intro b; linarith)⟩
    · exact ⟨iff_of_false (by decide) (by intro b; exact g1 b),
        iff_of_false (by decide) (by rintro ⟨a, _⟩; exact g2 a),
        iff_of_true rfl ⟨g3, lt_of_not_le g2⟩,
        iff_of_false (by decide) (by intro b; linarith)⟩
    · exact ⟨iff_of_false (by decide) (by intro b; exact g1 b),
        iff_of_false (by decide) (by rintro ⟨a, _⟩; exact g2 a),
        iff_of_false (by decide) (by rintro ⟨a, _⟩; exact g3 a),
        iff_of_true rfl (lt_of_not_le g3)⟩

/-- Claim C3 witness: instantiated at a concrete report and the score
value 50. -/
theorem c3_witness :
    ((0 : ℚ) ≤ 50 ∧ (50 : ℚ) ≤ 100 ∧ (0 : ℚ) ≤ 80 ∧ (80 : ℚ) ≤ 100 ∧
      (0 : ℚ) ≤ 50 ∧ (50 : ℚ) ≤ 100) ∧
    ((0 ≤ (calculate_risk_score ⟨50, 80, [], [], ["e1"]⟩ ⟨[], []⟩ ⟨0, 0⟩).overall_score ∧
      (calculate_risk_score ⟨50, 80, [], [], ["e1"]⟩ ⟨[], []⟩ ⟨0, 0⟩).overall_score ≤ 100) ∧
    ((determine_risk_level 50 = "low" ↔ 90 ≤ (50 : ℚ)) ∧
      (determine_risk_level 50 = "medium" ↔ 75 ≤ (50 : ℚ) ∧ (50 : ℚ) < 90) ∧
      (determine_risk_level 50 = "medium-high" ↔ 60 ≤ (50 : ℚ) ∧ (50 : ℚ) < 75) ∧
      (determine_risk_level 50 = "high" ↔ (50 : ℚ) < 60))) :=
  ⟨by norm_num,
    c3_score_bounds_and_level_partition ⟨50, 80, [], [], ["e1"]⟩ ⟨[], []⟩ ⟨0, 0⟩ 50
      (by norm_num) (by norm_num) (by norm_num) (by norm_num) (by norm_num) (by norm_num)⟩

/-- Claim C4 counterexample: with compliance score 82, confidence 94, a
400-word 2-page document with three topics but only two key clauses and
two executive orders, the unrounded overall score is 74.998; the
notification flag is set, yet the stored overall score rounds to 75.00,
so `requires_notification` differs from `overall_score < 75` on the
returned report. -/
theorem c4_counterexample :
    (calculate_risk_score ⟨82, 94, [], [], ["14151", "14173"]⟩
        ⟨["t1", "t2", "t3"], ["c1", "c2"]⟩ ⟨400, 2⟩).requires_notification = true ∧
    ¬ (calculate_risk_score ⟨82, 94, [], [], ["14151", "14173"]⟩
        ⟨["t1", "t2", "t3"], ["c1", "c2"]⟩ ⟨400, 2⟩).overall_score < 75 := by
  have hraw : rawOverallScore ⟨82, 94, [], [], ["14151", "14173"]⟩
      ⟨["t1", "t2", "t3"], ["c1", "c2"]⟩ ⟨400, 2⟩ = 74998 / 1000 := by
    norm_num [rawOverallScore, complianceRiskScore, qualityRiskScore, qualityRiskRaw,
      completenessRiskScore, completenessRiskRaw, max_def, min_def,
      List.length_cons, List.length_nil]
  constructor
  · simp only [calculate_risk_score, hraw, decide_eq_true_eq]
    norm_num
  · simp only [calculate_risk_score, hraw]
    norm_num [round2, roundHalfEven]

/-- Claim C4 as amended: the notification flag is computed from the
unrounded overall score, so it equals the comparison of the stored
(two-decimal rounded) overall score against 75 whenever the unrounded
score is not inside the rounding window [74.995, 75). -/
theorem c4_notification_threshold_amended (cr : ComplianceReport) (sm : SummaryResult)
    (md : DocMetadata)
    (h : rawOverallScore cr sm md < 74995 / 1000 ∨ 75 ≤ rawOverallScore cr sm md) :
    ((calculate_risk_score cr sm md).requires_notification = true ↔
      (calculate_risk_score cr sm md).overall_score < 75) := by
  simp only [calculate_risk_score, decide_eq_true_eq]
  rcases h with h | h
  · have h75 : rawOverallScore cr sm md < 75 := by linarith
    have hr := round2_le_add (rawOverallScore cr sm md)
    exact iff_of_true h75 (by linarith)
  · have h75 : ¬ rawOverallScore cr sm md < 75 := not_lt.mpr h
    have hr : (75 : ℚ) ≤ round2 (rawOverallScore cr sm md) := by
      have := intCast_le_round2 75 (rawOverallScore cr sm md) (by exact_mod_cast h)
      exact_mod_cast this
    exact iff_of_false h75 (by linarith)

/-- Claim C4 witness: instantiated at a report whose unrounded overall
score is 100, outside the rounding window. -/
theorem c4_witness :
    (rawOverallScore ⟨100, 100, [], [], ["a", "b"]⟩ ⟨["t1", "t2", "t3"], ["c1", "c2", "c3"]⟩
        ⟨1000, 2⟩ < 74995 / 1000 ∨
      75 ≤ rawOverallScore ⟨100, 100, [], [], ["a", "b"]⟩ ⟨["t1", "t2", "t3"], ["c1", "c2", "c3"]⟩
        ⟨1000, 2⟩) ∧
    ((calculate_risk_score ⟨100, 100, [], [], ["a", "b"]⟩ ⟨["t1", "t2", "t3"], ["c1", "c2", "c3"]⟩
        ⟨1000, 2⟩).requires_notification = true ↔
      (calculate_risk_score ⟨100, 100, [], [], ["a", "b"]⟩ ⟨["t1", "t2", "t3"], ["c1", "c2", "c3"]⟩
        ⟨1000, 2⟩).overall_score < 75) :=
  have hraw : (75 : ℚ) ≤ rawOverallScore ⟨100, 100, [], [], ["a", "b"]⟩
      ⟨["t1", "t2", "t3"], ["c1", "c2", "c3"]⟩ ⟨1000, 2⟩ := by
    norm_num [rawOverallScore, complianceRiskScore, qualityRiskScore, qualityRiskRaw,
      completenessRiskScore, completenessRiskRaw, max_def, min_def,
      List.length_cons, List.length_nil]
  ⟨Or.inr hraw, c4_notification_threshold_amended _ _ _ (Or.inr hraw)⟩

/-- Claim C8 counterexample: at compliance score 90, confidence 100,
and inputs giving quality and completeness sub-scores of 100, the
computed overall score is 94 (0.60 by 90 plus 0.25 by 100 plus 0.15 by
100), not the 90 the claim states. -/
theorem c8_counterexample :
    (calculate_risk_score ⟨90, 100, [], [], ["14151", "14173"]⟩
        ⟨["t1", "t2", "t3"], ["c1", "c2", "c3"]⟩ ⟨1000, 2⟩).overall_score = 94 ∧
    (94 : ℚ) ≠ 90 := by
  constructor
  · have hraw : rawOverallScore ⟨90, 100, [], [], ["14151", "14173"]⟩
        ⟨["t1", "t2", "t3"], ["c1", "c2", "c3"]⟩ ⟨1000, 2⟩ = 94 := by
      norm_num [rawOverallScore, complianceRiskScore, qualityRiskScore, qualityRiskRaw,
        completenessRiskScore, completenessRiskRaw, max_def, min_def,
        List.length_cons, List.length_nil]
    simp only [calculate_risk_score, hraw]
    norm_num [round2, roundHalfEven]
  · norm_num

/-- Claim C8 as amended: for every input with compliance score 90,
confidence 100, and quality and completeness sub-scores of 100 (word
count at least 1000, at least 2 pages, at least 3 topics, at least 3
clauses, at least 2 executive orders) the overall score is 94, the risk
level low, and no notification is required. -/
theorem c8_example_a_amended (cr : ComplianceReport) (sm : SummaryResult) (md : DocMetadata)
    (hcs : cr.compliance_score = 90) (hcf : cr.confidence_score = 100)
    (hw : 1000 ≤ md.word_count) (hp : 2 ≤ md.page_count)
    (ht : 3 ≤ sm.key_topics.length) (hk : 3 ≤ sm.key_clauses.length)
    (he : 2 ≤ cr.relevant_executive_orders.length) :
    (calculate_risk_score cr sm md).overall_score = 94 ∧
    (calculate_risk_score cr sm md).risk_level = "low" ∧
    (calculate_risk_score cr sm md).requires_notification = false := by
  have hcomp : complianceRiskScore cr = 90 := by
    simp only [complianceRiskScore, hcs, hcf]
    norm_num
  have hq : qualityRiskScore sm md = 100 := by
    have g1 : ¬ md.word_count < 500 := by omega
    have g2 : ¬ md.word_count < 1000 := by omega
    have g3 : ¬ md.page_count < 2 := by omega
    have g4 : ¬ sm.key_topics.length < 3 := by omega
    simp only [qualityRiskScore, qualityRiskRaw, g1, g2, g3, g4, if_false]
    norm_num [max_def]
  have hc : completenessRiskScore cr sm = 100 := by
    have g1 : ¬ sm.key_clauses.length < 3 := by omega
    have g2 : ¬ cr.relevant_executive_orders.length = 0 := by omega
    have g3 : ¬ cr.relevant_executive_orders.length < 2 := by omega
    simp only [completenessRiskScore, completenessRiskRaw, g1, g2, g3, if_false]
    norm_num [max_def]
  have hraw : rawOverallScore cr sm md = 94 := by
    unfold rawOverallScore
    rw [hcomp, hq, hc]
    norm_num
  refine ⟨?_, ?_, ?_⟩
  · simp only [calculate_risk_score, hraw]
    norm_num [round2, roundHalfEven]
  · simp only [calculate_risk_score, hraw, determine_risk_level]
    norm_num
  · simp only [calculate_risk_score, hraw]
    simp only [decide_eq_false_iff_not]
    norm_num

/-- Claim C8 witness: the amended statement applied at the concrete
Example A inputs. -/
theorem c8_witness :
    ((⟨90, 100, [], [], ["a", "b"]⟩ : ComplianceReport).compliance_score = 90 ∧
      (⟨90, 100, [], [], ["a", "b"]⟩ : ComplianceReport).confidence_score = 100 ∧
      1000 ≤ (⟨1000, 2⟩ : DocMetadata).word_count ∧
      2 ≤ (⟨1000, 2⟩ : DocMetadata).page_count ∧
      3 ≤ (⟨["t1", "t2", "t3"], ["c1", "c2", "c3"]⟩ : SummaryResult).key_topics.length ∧
      3 ≤ (⟨["t1", "t2", "t3"], ["c1", "c2", "c3"]⟩ : SummaryResult).key_clauses.length ∧
      2 ≤ (⟨90, 100, [], [], ["a", "b"]⟩ : ComplianceReport).relevant_executive_orders.length) ∧
    ((calculate_risk_score ⟨90, 100, [], [], ["a", "b"]⟩ ⟨["t1", "t2", "t3"], ["c1", "c2", "c3"]⟩
        ⟨1000, 2⟩).overall_score = 94 ∧
      (calculate_risk_score ⟨90, 100, [], [], ["a", "b"]⟩ ⟨["t1", "t2", "t3"], ["c1", "c2", "c3"]⟩
        ⟨1000, 2⟩).risk_level = "low" ∧
      (calculate_risk_score ⟨90, 100, [], [], ["a", "b"]⟩ ⟨["t1", "t2", "t3"], ["c1", "c2", "c3"]⟩
        ⟨1000, 2⟩).requires_notification = false) :=
  ⟨⟨rfl, rfl, by norm_num, by norm_num, by norm_num, by norm_num, by norm_num⟩,
    c8_example_a_amended ⟨90, 100, [], [], ["a", "b"]⟩ ⟨["t1", "t2", "t3"], ["c1", "c2", "c3"]⟩
      ⟨1000, 2⟩ rfl rfl (by norm_num) (by norm_num) (by norm_num) (by norm_num) (by norm_num)⟩

/-- Claim C1 (code bug evaluation): a completed run whose extracted
compliance status is Non-Compliant but whose risk level is low yields
the overall status `approved_with_conditions` rather than the claimed
`requires_legal_review`: the orchestrator normalises the status to
`non-compliant` (only spaces become underscores) and then compares it
with the literal `non_compliant`, which can never match. -/
theorem c1_non_compliant_run_not_escalated :
    extract_status c1AnalysisText = "Non-Compliant" ∧
    (runComplianceAndRisk c1AnalysisText c1Eos c1Summary c1Metadata).compliance_status =
      "non-compliant" ∧
    (runComplianceAndRisk c1AnalysisText c1Eos c1Summary c1Metadata).risk.risk_level = "low" ∧
    (runComplianceAndRisk c1AnalysisText c1Eos c1Summary c1Metadata).overall_status =
      "approved_with_conditions" ∧
    (runComplianceAndRisk c1AnalysisText c1Eos c1Summary c1Metadata).overall_status ≠
      "requires_legal_review" := by
  have hstat : extract_status c1AnalysisText = "Non-Compliant" := by decide
  have hnorm : pyNormalizeStatus "Non-Compliant" = "non-compliant" := by decide
  have hscore : calc_compliance_score_from_analysis "non-compliant" c1AnalysisText c1Eos = 96 := by
    have hpen : (negativeIndicators.map (indicatorPenalty (lowerL c1AnalysisText.data))).sum =
        -18 := by decide
    have hbon : (positiveIndicators.map (indicatorBonus (lowerL c1AnalysisText.data))).sum =
        49 := by decide
    simp only [calc_compliance_score_from_analysis, hpen, hbon]
    rw [if_neg (by decide : ¬ ("non-compliant" : String) = "compliant"),
        if_neg (by decide : ¬ ("non-compliant" : String) = "non_compliant")]
    norm_num [c1Eos, max_def, min_def, List.length_cons, List.length_nil]
  have hconf : extract_confidence_score c1AnalysisText = 100 := by decide
  have hrisk : (calculate_risk_score ⟨96, ((100 : ℤ) : ℚ), [], [], c1Eos⟩
      c1Summary c1Metadata).risk_level = "low" := by
    norm_num [calculate_risk_score, rawOverallScore, complianceRiskScore, qualityRiskScore,
      qualityRiskRaw, completenessRiskScore, completenessRiskRaw, max_def, min_def,
      c1Eos, c1Summary, c1Metadata, List.length_cons, List.length_nil, determine_risk_level]
  refine ⟨hstat, ?_, ?_, ?_, ?_⟩ <;>
    simp only [runComplianceAndRisk, hstat, hnorm, hscore, hconf, hrisk] <;> trivial

/-- Claim C7: `send_email` tries Graph API, then SMTP, then the
simulated channel, in that fixed order with no channel re-invoked; it
always returns a delivery record (the simulated sink cannot fail, so no
exception propagates), and the record names, in its method and status
fields, the channel that ultimately succeeded (the last one attempted). -/
theorem c7_send_email_fallback_chain (env : EmailEnv) (e : EmailData) :
    ∃ (tr : List EmailChannel) (r : SendRecord) (c : EmailChannel),
      send_email env e = Except.ok (tr, r) ∧
      strictChain (tr.map chanIdx) = true ∧
      tr.getLast? = some c ∧
      r.method = channelMethod c ∧
      r.status = channelStatus c := by
  cases hg : env.use_graph_api <;> cases hgo : env.graph_ok <;>
    cases hs : smtpConfigured env <;> cases hso : env.smtp_ok <;>
      simp only [send_email, send_via_graph_api, send_via_smtp, simulate_email_send,
        hg, hgo, hs, hso, if_true, if_false, Bool.false_eq_true, ite_false, ite_true] <;>
      first
        | exact ⟨_, _, EmailChannel.graphApi, rfl, rfl, rfl, rfl, rfl⟩
        | exact ⟨_, _, EmailChannel.smtp, rfl, rfl, rfl, rfl, rfl⟩
        | exact ⟨_, _, EmailChannel.demo, rfl, rfl, rfl, rfl, rfl⟩

end GrantEO
